import Mathlib

/-!
# Solar_MPPT_OLED: timer prescaler and ADC register configuration

A shallow embedding of `setPrescaler.h` (Arduino Leonardo / ATmega32u4).

The hardware state touched by the file is five memory-mapped 8-bit registers.
Each register is a natural number; every store reduces the stored value modulo
`2^8`, as the assignment to a `volatile uint8_t` does.  Both parameters of
`setPWMPrescaler` have type `uint8_t`, so the integer written by the caller is
converted modulo `2^8` before the body runs.
-/

namespace SolarMPPT

/-- The memory-mapped registers read or written by `setPrescaler.h`. -/
structure Regs where
  TCCR0B : Nat
  TCCR1B : Nat
  TCCR3B : Nat
  TCCR4B : Nat
  DIDR0 : Nat
  deriving DecidableEq, Repr

/-- Conversion of a C integer to `uint8_t` (reduction modulo `2^8`). -/
def toUint8 (x : Int) : Nat := (x % 256).toNat

/-- The `switch (prescale)` of the timer0 block (lines 34-41).
`none` is the `default: return;` branch. -/
def timer0Mode (prescale : Nat) : Option Nat :=
  if prescale = 1 then some 0x01
  else if prescale = 8 then some 0x02
  else if prescale = 64 then some 0x03
  else if prescale = 256 then some 0x04
  else if prescale = 1024 then some 0x05
  else none

/-- The `switch (prescale)` of the timer1/timer3 block (lines 47-54).
`none` is the `default: return;` branch. -/
def timer13Mode (prescale : Nat) : Option Nat :=
  if prescale = 1 then some 0x01
  else if prescale = 8 then some 0x02
  else if prescale = 64 then some 0x03
  else if prescale = 256 then some 0x04
  else if prescale = 1024 then some 0x05
  else none

/-- The `switch (prescale)` of the timer4 block (lines 64-81).
`none` is the `default: return;` branch. -/
def timer4Mode (prescale : Nat) : Option Nat :=
  if prescale = 1 then some 0x01
  else if prescale = 2 then some 0x02
  else if prescale = 4 then some 0x03
  else if prescale = 8 then some 0x04
  else if prescale = 16 then some 0x05
  else if prescale = 32 then some 0x06
  else if prescale = 64 then some 0x07
  else if prescale = 128 then some 0x08
  else if prescale = 256 then some 0x09
  else if prescale = 512 then some 0x0A
  else if prescale = 1024 then some 0x0B
  else if prescale = 2048 then some 0x0C
  else if prescale = 4096 then some 0x0D
  else if prescale = 8192 then some 0x0E
  else if prescale = 16384 then some 0x0F
  else none

/-- First `if` block of `setPWMPrescaler` (lines 32-43).
`Except.error s` is an early `return` leaving the registers as `s`.
In `TCCR0B & 0b11111000 | mode` the `&` binds tighter than the `|`. -/
def timer0Block (pin prescale : Nat) (s : Regs) : Except Regs Regs :=
  if pin = 3 ∨ pin = 11 then
    match timer0Mode prescale with
    | none => Except.error s
    | some mode =>
      Except.ok { s with TCCR0B := ((s.TCCR0B &&& 0b11111000) ||| mode) % 256 }
  else Except.ok s

/-- Second `if` block of `setPWMPrescaler` (lines 45-60). -/
def timer13Block (pin prescale : Nat) (s : Regs) : Except Regs Regs :=
  if pin = 5 ∨ pin = 9 ∨ pin = 10 then
    match timer13Mode prescale with
    | none => Except.error s
    | some mode =>
      if pin = 9 ∨ pin = 10 then
        Except.ok { s with TCCR1B := ((s.TCCR1B &&& 0b11111000) ||| mode) % 256 }
      else
        Except.ok { s with TCCR3B := ((s.TCCR3B &&& 0b11111000) ||| mode) % 256 }
  else Except.ok s

/-- Third `if` block of `setPWMPrescaler` (lines 62-83). -/
def timer4Block (pin prescale : Nat) (s : Regs) : Except Regs Regs :=
  if pin = 6 ∨ pin = 13 then
    match timer4Mode prescale with
    | none => Except.error s
    | some mode =>
      Except.ok { s with TCCR4B := ((s.TCCR4B &&& 0b11110000) ||| mode) % 256 }
  else Except.ok s

/-- The body of `setPWMPrescaler` on the received `uint8_t` values: the three
blocks in sequence, an early `return` skipping the remaining blocks. -/
def setPWMPrescalerBody (pin prescale : Nat) (s : Regs) : Except Regs Regs :=
  timer0Block pin prescale s >>= fun s0 =>
  timer13Block pin prescale s0 >>= fun s1 =>
  timer4Block pin prescale s1

/-- The call `setPWMPrescaler(pin, prescale)`: the caller's integers are
converted to the `uint8_t` parameters, the body runs, and the registers are
those at the point where the function returned. -/
def setPWMPrescaler (pin prescale : Int) (s : Regs) : Regs :=
  match setPWMPrescalerBody (toUint8 pin) (toUint8 prescale) s with
  | Except.ok s1 => s1
  | Except.error s1 => s1

/-- The call `setupADC()` (lines 92-95). -/
def setupADC (s : Regs) : Regs :=
  { s with DIDR0 := 0b11110011 % 256 }

/-- The four timers whose control register `setPWMPrescaler` can write. -/
inductive Timer where
  | timer0
  | timer1
  | timer3
  | timer4
  deriving DecidableEq, Repr

/-- The timer owning the pin of a call, following the pin tests of the three
blocks (lines 32, 45, 55, 62) and the pin list of the doc comment (lines
23-26); `none` for a pin that no block tests for. -/
def timerOf (pin : Int) : Option Timer :=
  if toUint8 pin = 3 ∨ toUint8 pin = 11 then some Timer.timer0
  else if toUint8 pin = 9 ∨ toUint8 pin = 10 then some Timer.timer1
  else if toUint8 pin = 5 then some Timer.timer3
  else if toUint8 pin = 6 ∨ toUint8 pin = 13 then some Timer.timer4
  else none

/-- The table of claim C12 for the 3-bit timers, on the received 8-bit value:
divisors 1, 8, 64 with codes 1, 2, 3 and nothing else. -/
def receivedCode3 (v : Nat) : Option Nat :=
  if v = 1 then some 1
  else if v = 8 then some 2
  else if v = 64 then some 3
  else none

/-- The table of claim C12 for timer4, on the received 8-bit value: the powers
of two 1..128, with code `log2 v + 1`, and nothing else. -/
def receivedCode4 (v : Nat) : Option Nat :=
  if v = 1 ∨ v = 2 ∨ v = 4 ∨ v = 8 ∨ v = 16 ∨ v = 32 ∨ v = 64 ∨ v = 128 then
    some (Nat.log2 v + 1)
  else none

/-- The prescaler fields are all non-zero: no timer has the clock-select code
0 ("timer stopped") in the low 3 bits of `TCCR0B`, `TCCR1B`, `TCCR3B` or in the
low 4 bits of `TCCR4B`. -/
def noTimerStopped (s : Regs) : Prop :=
  s.TCCR0B &&& 0b111 ≠ 0 ∧ s.TCCR1B &&& 0b111 ≠ 0 ∧ s.TCCR3B &&& 0b111 ≠ 0
    ∧ s.TCCR4B &&& 0b1111 ≠ 0

/-! ## Auxiliary facts about the mode tables and the masked write -/

theorem timer0Mode_range (v m : Nat) (h : timer0Mode v = some m) : 1 ≤ m ∧ m ≤ 5 := by
  unfold timer0Mode at h
  iterate 5
    rw [ite_eq_iff] at h
    rcases h with ⟨-, h⟩ | ⟨-, h⟩
    · cases h; decide
  cases h

theorem timer13Mode_range (v m : Nat) (h : timer13Mode v = some m) : 1 ≤ m ∧ m ≤ 5 := by
  unfold timer13Mode at h
  iterate 5
    rw [ite_eq_iff] at h
    rcases h with ⟨-, h⟩ | ⟨-, h⟩
    · cases h; decide
  cases h

theorem timer4Mode_range (v m : Nat) (h : timer4Mode v = some m) : 1 ≤ m ∧ m ≤ 15 := by
  unfold timer4Mode at h
  iterate 15
    rw [ite_eq_iff] at h
    rcases h with ⟨-, h⟩ | ⟨-, h⟩
    · cases h; decide
  cases h

/-- A mask below `2^8` only looks at the low byte of a register value. -/
theorem and_mask_mod (r k : Nat) (hk : k < 256) : r &&& k = (r % 256) &&& k := by
  have h : k = 255 &&& k := by
    have := @Nat.and_pow_two_sub_one_of_lt_two_pow 8 k (by simpa using hk)
    rw [Nat.and_comm] at this
    simpa using this.symm
  conv_lhs => rw [h, ← Nat.and_assoc]
  have := Nat.and_pow_two_sub_one_eq_mod r 8
  simp at this
  rw [this]

set_option maxRecDepth 100000 in
theorem write3_byte : ∀ r < 256, ∀ m < 8,
    ((r &&& 0b11111000) ||| m) % 256 = ((r &&& 0b11111000) ||| m)
    ∧ ((r &&& 0b11111000) ||| m) &&& 0b11111000 = r &&& 0b11111000
    ∧ ((r &&& 0b11111000) ||| m) &&& 0b111 = m := by
  decide

set_option maxRecDepth 100000 in
theorem write4_byte : ∀ r < 256, ∀ m < 16,
    ((r &&& 0b11110000) ||| m) % 256 = ((r &&& 0b11110000) ||| m)
    ∧ ((r &&& 0b11110000) ||| m) &&& 0b11110000 = r &&& 0b11110000
    ∧ ((r &&& 0b11110000) ||| m) &&& 0b1111 = m := by
  decide

/-- The masked write of a 3-bit prescaler field, for any register value. -/
theorem write3_spec (r m : Nat) (hm : m < 8) :
    ((r &&& 0b11111000) ||| m) % 256 = ((r &&& 0b11111000) ||| m)
    ∧ (((r &&& 0b11111000) ||| m) % 256) &&& 0b11111000 = r &&& 0b11111000
    ∧ (((r &&& 0b11111000) ||| m) % 256) &&& 0b111 = m := by
  have h := write3_byte (r % 256) (Nat.mod_lt _ (by decide)) m hm
  rw [← and_mask_mod r 0b11111000 (by decide)] at h
  obtain ⟨h1, h2, h3⟩ := h
  refine ⟨h1, ?_, ?_⟩
  · rw [h1]; exact h2
  · rw [h1]; exact h3

/-- The masked write of the 4-bit prescaler field, for any register value. -/
theorem write4_spec (r m : Nat) (hm : m < 16) :
    ((r &&& 0b11110000) ||| m) % 256 = ((r &&& 0b11110000) ||| m)
    ∧ (((r &&& 0b11110000) ||| m) % 256) &&& 0b11110000 = r &&& 0b11110000
    ∧ (((r &&& 0b11110000) ||| m) % 256) &&& 0b1111 = m := by
  have h := write4_byte (r % 256) (Nat.mod_lt _ (by decide)) m hm
  rw [← and_mask_mod r 0b11110000 (by decide)] at h
  obtain ⟨h1, h2, h3⟩ := h
  refine ⟨h1, ?_, ?_⟩
  · rw [h1]; exact h2
  · rw [h1]; exact h3

/-- Writing the same field twice with codes `m1`, `m2` is writing `m2`. -/
theorem write3_write3 (r m1 m2 : Nat) (h1 : m1 < 8) :
    ((((r &&& 0b11111000) ||| m1) % 256 &&& 0b11111000) ||| m2) % 256
      = ((r &&& 0b11111000) ||| m2) % 256 := by
  rw [(write3_spec r m1 h1).2.1]

theorem write4_write4 (r m1 m2 : Nat) (h1 : m1 < 16) :
    ((((r &&& 0b11110000) ||| m1) % 256 &&& 0b11110000) ||| m2) % 256
      = ((r &&& 0b11110000) ||| m2) % 256 := by
  rw [(write4_spec r m1 h1).2.1]

/-- What the body does on the received values, by pin group: the received pin
selects at most one block. -/
theorem setPWMPrescalerBody_eq (p v : Nat) (s : Regs) :
    (match setPWMPrescalerBody p v s with
      | Except.ok s1 => s1
      | Except.error s1 => s1) =
      if p = 3 ∨ p = 11 then
        match timer0Mode v with
        | none => s
        | some mode => { s with TCCR0B := ((s.TCCR0B &&& 0b11111000) ||| mode) % 256 }
      else if p = 9 ∨ p = 10 then
        match timer13Mode v with
        | none => s
        | some mode => { s with TCCR1B := ((s.TCCR1B &&& 0b11111000) ||| mode) % 256 }
      else if p = 5 then
        match timer13Mode v with
        | none => s
        | some mode => { s with TCCR3B := ((s.TCCR3B &&& 0b11111000) ||| mode) % 256 }
      else if p = 6 ∨ p = 13 then
        match timer4Mode v with
        | none => s
        | some mode => { s with TCCR4B := ((s.TCCR4B &&& 0b11110000) ||| mode) % 256 }
      else s := by
  unfold setPWMPrescalerBody timer0Block timer13Block timer4Block
  generalize timer0Mode v = o0
  generalize timer13Mode v = o13
  generalize timer4Mode v = o4
  by_cases c0 : p = 3 ∨ p = 11
  · have c13 : ¬ (p = 5 ∨ p = 9 ∨ p = 10) := by omega
    have c4 : ¬ (p = 6 ∨ p = 13) := by omega
    cases o0 <;> simp [bind, Except.bind, c0, c13, c4]
  · by_cases c1 : p = 9 ∨ p = 10
    · have c13 : p = 5 ∨ p = 9 ∨ p = 10 := by omega
      have c4 : ¬ (p = 6 ∨ p = 13) := by omega
      cases o13 <;> simp [bind, Except.bind, c0, c13, c4, c1]
    · by_cases c3 : p = 5
      · have c13 : p = 5 ∨ p = 9 ∨ p = 10 := by omega
        have c4 : ¬ (p = 6 ∨ p = 13) := by omega
        cases o13 <;> simp [bind, Except.bind, c0, c13, c4, c1, c3]
      · have c13 : ¬ (p = 5 ∨ p = 9 ∨ p = 10) := by omega
        by_cases c4 : p = 6 ∨ p = 13
        · cases o4 <;> simp [bind, Except.bind, c0, c13, c4, c1, c3]
        · simp [bind, Except.bind, c0, c13, c4, c1, c3]

/-- What a call does, by pin group, in terms of the converted arguments. -/
theorem setPWMPrescaler_eq (pin prescale : Int) (s : Regs) :
    setPWMPrescaler pin prescale s =
      if toUint8 pin = 3 ∨ toUint8 pin = 11 then
        match timer0Mode (toUint8 prescale) with
        | none => s
        | some mode => { s with TCCR0B := ((s.TCCR0B &&& 0b11111000) ||| mode) % 256 }
      else if toUint8 pin = 9 ∨ toUint8 pin = 10 then
        match timer13Mode (toUint8 prescale) with
        | none => s
        | some mode => { s with TCCR1B := ((s.TCCR1B &&& 0b11111000) ||| mode) % 256 }
      else if toUint8 pin = 5 then
        match timer13Mode (toUint8 prescale) with
        | none => s
        | some mode => { s with TCCR3B := ((s.TCCR3B &&& 0b11111000) ||| mode) % 256 }
      else if toUint8 pin = 6 ∨ toUint8 pin = 13 then
        match timer4Mode (toUint8 prescale) with
        | none => s
        | some mode => { s with TCCR4B := ((s.TCCR4B &&& 0b11110000) ||| mode) % 256 }
      else s := by
  unfold setPWMPrescaler
  exact setPWMPrescalerBody_eq (toUint8 pin) (toUint8 prescale) s

/-! ## The documented divisor tables (claims C1, C3, C5) -/

/-- C1 (code defect): the documented divisors 256 and 1024 never reach their
`case` labels.  On pin 3 with `TCCR0B = 0` the call with divisor 256 leaves
`TCCR0B = 0`, whereas the masked write of mode code `0x04` would give 4; for
every register state the calls with divisors 256 and 1024 change nothing. -/
theorem setPWMPrescaler_pin3_divisor256_unwritten :
    (setPWMPrescaler 3 256 ⟨0, 0, 0, 0, 0⟩).TCCR0B = 0
    ∧ (setPWMPrescaler 3 256 ⟨0, 0, 0, 0, 0⟩).TCCR0B
        ≠ (((⟨0, 0, 0, 0, 0⟩ : Regs).TCCR0B &&& 0b11111000) ||| 0x04)
    ∧ (∀ s : Regs, setPWMPrescaler 3 256 s = s)
    ∧ (∀ s : Regs, setPWMPrescaler 3 1024 s = s) := by
  refine ⟨by decide, by decide, ?_, ?_⟩
  · intro s
    rw [setPWMPrescaler_eq]
    have hp : toUint8 3 = 3 := by decide
    have hv : toUint8 256 = 0 := by decide
    have hm : timer0Mode 0 = none := by decide
    simp [hp, hv, hm]
  · intro s
    rw [setPWMPrescaler_eq]
    have hp : toUint8 3 = 3 := by decide
    have hv : toUint8 1024 = 0 := by decide
    have hm : timer0Mode 0 = none := by decide
    simp [hp, hv, hm]

/-- C2: a pin value in 0..255 outside {3, 5, 6, 9, 10, 11, 13} leaves all five
registers as they were, whatever the divisor and the register state. -/
theorem setPWMPrescaler_unsupported_pin (pin prescale : Int) (s : Regs)
    (hlo : 0 ≤ pin) (hhi : pin ≤ 255)
    (hpin : pin ≠ 3 ∧ pin ≠ 5 ∧ pin ≠ 6 ∧ pin ≠ 9 ∧ pin ≠ 10 ∧ pin ≠ 11 ∧ pin ≠ 13) :
    setPWMPrescaler pin prescale s = s := by
  rw [setPWMPrescaler_eq]
  have hp : (toUint8 pin : Int) = pin := by
    unfold toUint8
    omega
  generalize toUint8 pin = p at hp
  have c0 : ¬ (p = 3 ∨ p = 11) := by omega
  have c1 : ¬ (p = 9 ∨ p = 10) := by omega
  have c3 : ¬ (p = 5) := by omega
  have c4 : ¬ (p = 6 ∨ p = 13) := by omega
  simp [c0, c1, c3, c4]

theorem setPWMPrescaler_unsupported_pin_witness :
    (0 : Int) ≤ 7 ∧ (7 : Int) ≤ 255
    ∧ setPWMPrescaler 7 8 ⟨0x03, 0x0B, 0x03, 0x07, 0xF3⟩ = ⟨0x03, 0x0B, 0x03, 0x07, 0xF3⟩ :=
  ⟨by decide, by decide,
    setPWMPrescaler_unsupported_pin 7 8 ⟨0x03, 0x0B, 0x03, 0x07, 0xF3⟩
      (by decide) (by decide) (by decide)⟩

/-- C3 (code defect): a divisor outside the legal set can still be written.
The caller's divisor 257 on pin 3 is received as 1, so with `TCCR0B = 0` the
call stores mode code 1 in `TCCR0B` instead of leaving the registers alone. -/
theorem setPWMPrescaler_pin3_divisor257_written :
    setPWMPrescaler 3 257 ⟨0, 0, 0, 0, 0⟩ = ⟨1, 0, 0, 0, 0⟩
    ∧ setPWMPrescaler 3 257 ⟨0, 0, 0, 0, 0⟩ ≠ ⟨0, 0, 0, 0, 0⟩ := by
  decide

/-- C4: after `setPWMPrescaler(9, 64)` the low three bits of `TCCR1B` are
`0b011` and its upper five bits are those it had before the call. -/
theorem setPWMPrescaler_pin9_divisor64 (s : Regs) :
    (setPWMPrescaler 9 64 s).TCCR1B &&& 0b111 = 0b011
    ∧ (setPWMPrescaler 9 64 s).TCCR1B &&& 0b11111000 = s.TCCR1B &&& 0b11111000 := by
  rw [setPWMPrescaler_eq]
  have hp : toUint8 9 = 9 := by decide
  have hv : toUint8 64 = 64 := by decide
  have hm : timer13Mode 64 = some 3 := by decide
  have h := write3_spec s.TCCR1B 3 (by decide)
  simp only [hp, hv, hm]
  exact ⟨h.2.2, h.2.1⟩

/-- C5 (code defect): the caller's divisor 2048 on pin 6 is received as 0 and
falls to `default: return`.  Every register state is left unchanged; with
`TCCR4B = 0` the low four bits stay 0 and do not become `0x0C`. -/
theorem setPWMPrescaler_pin6_divisor2048_unwritten :
    (∀ s : Regs, setPWMPrescaler 6 2048 s = s)
    ∧ (setPWMPrescaler 6 2048 ⟨0, 0, 0, 0, 0⟩).TCCR4B &&& 0b1111 = 0
    ∧ (setPWMPrescaler 6 2048 ⟨0, 0, 0, 0, 0⟩).TCCR4B &&& 0b1111 ≠ 0x0C := by
  refine ⟨?_, by decide, by decide⟩
  intro s
  rw [setPWMPrescaler_eq]
  have hp : toUint8 6 = 6 := by decide
  have hv : toUint8 2048 = 0 := by decide
  have hm : timer4Mode 0 = none := by decide
  simp [hp, hv, hm]

/-- C6: whatever the registers hold, `setupADC()` leaves `DIDR0 = 0b11110011`. -/
theorem setupADC_DIDR0 (s : Regs) : (setupADC s).DIDR0 = 0b11110011 := by
  simp [setupADC]

/-! ## Masking, idempotence, pin pairs and frame (claims C7 to C10) -/

set_option maxRecDepth 100000 in
theorem mode_fits_field :
    (∀ m < 8, m &&& 0b11111000 = 0) ∧ (∀ m < 16, m &&& 0b11110000 = 0) := by
  decide

/-- C7: for every pin, divisor and register state the bits outside the
prescaler field (mask `0b11111000` of `TCCR0B`, `TCCR1B`, `TCCR3B`, mask
`0b11110000` of `TCCR4B`) are the same after the call as before, and every mode
code of the three tables has no bit outside the field it is written to. -/
theorem setPWMPrescaler_preserves_unrelated_bits (pin prescale : Int) (s : Regs) :
    (setPWMPrescaler pin prescale s).TCCR0B &&& 0b11111000 = s.TCCR0B &&& 0b11111000
    ∧ (setPWMPrescaler pin prescale s).TCCR1B &&& 0b11111000 = s.TCCR1B &&& 0b11111000
    ∧ (setPWMPrescaler pin prescale s).TCCR3B &&& 0b11111000 = s.TCCR3B &&& 0b11111000
    ∧ (setPWMPrescaler pin prescale s).TCCR4B &&& 0b11110000 = s.TCCR4B &&& 0b11110000
    ∧ (∀ v m : Nat, timer0Mode v = some m → m &&& 0b11111000 = 0)
    ∧ (∀ v m : Nat, timer13Mode v = some m → m &&& 0b11111000 = 0)
    ∧ (∀ v m : Nat, timer4Mode v = some m → m &&& 0b11110000 = 0) := by
  refine ⟨?_, ?_, ?_, ?_, ?_, ?_, ?_⟩
  · rw [setPWMPrescaler_eq]
    split_ifs
    · cases hm : timer0Mode (toUint8 prescale) with
      | none => rfl
      | some m =>
        exact (write3_spec s.TCCR0B m (by have := timer0Mode_range _ _ hm; omega)).2.1
    all_goals first | rfl | (split <;> rfl)
  · rw [setPWMPrescaler_eq]
    split_ifs
    · split <;> rfl
    · cases hm : timer13Mode (toUint8 prescale) with
      | none => rfl
      | some m =>
        exact (write3_spec s.TCCR1B m (by have := timer13Mode_range _ _ hm; omega)).2.1
    all_goals first | rfl | (split <;> rfl)
  · rw [setPWMPrescaler_eq]
    split_ifs
    · split <;> rfl
    · split <;> rfl
    · cases hm : timer13Mode (toUint8 prescale) with
      | none => rfl
      | some m =>
        exact (write3_spec s.TCCR3B m (by have := timer13Mode_range _ _ hm; omega)).2.1
    all_goals first | rfl | (split <;> rfl)
  · rw [setPWMPrescaler_eq]
    split_ifs
    · split <;> rfl
    · split <;> rfl
    · split <;> rfl
    · cases hm : timer4Mode (toUint8 prescale) with
      | none => rfl
      | some m =>
        exact (write4_spec s.TCCR4B m (by have := timer4Mode_range _ _ hm; omega)).2.1
    · rfl
  · intro v m hm
    exact mode_fits_field.1 m (by have := timer0Mode_range _ _ hm; omega)
  · intro v m hm
    exact mode_fits_field.1 m (by have := timer13Mode_range _ _ hm; omega)
  · intro v m hm
    exact mode_fits_field.2 m (by have := timer4Mode_range _ _ hm; omega)

theorem setPWMPrescaler_preserves_unrelated_bits_witness :
    timer4Mode 128 = some 8 ∧ 8 &&& 0b11110000 = 0 :=
  ⟨by decide,
    (setPWMPrescaler_preserves_unrelated_bits 6 128 ⟨0, 0, 0, 0xF7, 0⟩).2.2.2.2.2.2
      128 8 (by decide)⟩

/-- C8: both operations are idempotent on the register state. -/
theorem setPWMPrescaler_setupADC_idempotent (pin prescale : Int) (s : Regs) :
    setPWMPrescaler pin prescale (setPWMPrescaler pin prescale s)
        = setPWMPrescaler pin prescale s
    ∧ setupADC (setupADC s) = setupADC s := by
  refine ⟨?_, rfl⟩
  simp only [setPWMPrescaler_eq]
  generalize toUint8 pin = p
  generalize toUint8 prescale = v
  split_ifs
  · cases hm : timer0Mode v with
    | none => rfl
    | some m =>
      have h := write3_write3 s.TCCR0B m m (by have := timer0Mode_range _ _ hm; omega)
      simp only [h]
  · cases hm : timer13Mode v with
    | none => rfl
    | some m =>
      have h := write3_write3 s.TCCR1B m m (by have := timer13Mode_range _ _ hm; omega)
      simp only [h]
  · cases hm : timer13Mode v with
    | none => rfl
    | some m =>
      have h := write3_write3 s.TCCR3B m m (by have := timer13Mode_range _ _ hm; omega)
      simp only [h]
  · cases hm : timer4Mode v with
    | none => rfl
    | some m =>
      have h := write4_write4 s.TCCR4B m m (by have := timer4Mode_range _ _ hm; omega)
      simp only [h]
  · rfl

/-- C9: the two pins of a pair give the same final registers for every divisor
and register state: 3 and 11, 9 and 10, 6 and 13. -/
theorem setPWMPrescaler_paired_pins (prescale : Int) (s : Regs) :
    setPWMPrescaler 3 prescale s = setPWMPrescaler 11 prescale s
    ∧ setPWMPrescaler 9 prescale s = setPWMPrescaler 10 prescale s
    ∧ setPWMPrescaler 6 prescale s = setPWMPrescaler 13 prescale s := by
  have h3 : toUint8 3 = 3 := by decide
  have h11 : toUint8 11 = 11 := by decide
  have h9 : toUint8 9 = 9 := by decide
  have h10 : toUint8 10 = 10 := by decide
  have h6 : toUint8 6 = 6 := by decide
  have h13 : toUint8 13 = 13 := by decide
  refine ⟨?_, ?_, ?_⟩
  · simp [setPWMPrescaler_eq, h3, h11]
  · simp [setPWMPrescaler_eq, h9, h10]
  · simp [setPWMPrescaler_eq, h6, h13]

/-- A call whose received pin is 3 or 11 can change `TCCR0B` only. -/
theorem setPWMPrescaler_frame_timer0 (pin prescale : Int) (s : Regs)
    (h : toUint8 pin = 3 ∨ toUint8 pin = 11) :
    setPWMPrescaler pin prescale s
      = { s with TCCR0B := (setPWMPrescaler pin prescale s).TCCR0B } := by
  rw [setPWMPrescaler_eq, if_pos h]
  cases timer0Mode (toUint8 prescale) <;> rfl

/-- A call whose received pin is 9 or 10 can change `TCCR1B` only. -/
theorem setPWMPrescaler_frame_timer1 (pin prescale : Int) (s : Regs)
    (h : toUint8 pin = 9 ∨ toUint8 pin = 10) :
    setPWMPrescaler pin prescale s
      = { s with TCCR1B := (setPWMPrescaler pin prescale s).TCCR1B } := by
  have c0 : ¬ (toUint8 pin = 3 ∨ toUint8 pin = 11) := by omega
  rw [setPWMPrescaler_eq, if_neg c0, if_pos h]
  cases timer13Mode (toUint8 prescale) <;> rfl

/-- A call whose received pin is 5 can change `TCCR3B` only. -/
theorem setPWMPrescaler_frame_timer3 (pin prescale : Int) (s : Regs)
    (h : toUint8 pin = 5) :
    setPWMPrescaler pin prescale s
      = { s with TCCR3B := (setPWMPrescaler pin prescale s).TCCR3B } := by
  have c0 : ¬ (toUint8 pin = 3 ∨ toUint8 pin = 11) := by omega
  have c1 : ¬ (toUint8 pin = 9 ∨ toUint8 pin = 10) := by omega
  rw [setPWMPrescaler_eq, if_neg c0, if_neg c1, if_pos h]
  cases timer13Mode (toUint8 prescale) <;> rfl

/-- A call whose received pin is 6 or 13 can change `TCCR4B` only. -/
theorem setPWMPrescaler_frame_timer4 (pin prescale : Int) (s : Regs)
    (h : toUint8 pin = 6 ∨ toUint8 pin = 13) :
    setPWMPrescaler pin prescale s
      = { s with TCCR4B := (setPWMPrescaler pin prescale s).TCCR4B } := by
  have c0 : ¬ (toUint8 pin = 3 ∨ toUint8 pin = 11) := by omega
  have c1 : ¬ (toUint8 pin = 9 ∨ toUint8 pin = 10) := by omega
  have c3 : ¬ (toUint8 pin = 5) := by omega
  rw [setPWMPrescaler_eq, if_neg c0, if_neg c1, if_neg c3, if_pos h]
  cases timer4Mode (toUint8 prescale) <;> rfl

/-- No call of `setPWMPrescaler` changes `DIDR0`. -/
theorem setPWMPrescaler_DIDR0 (pin prescale : Int) (s : Regs) :
    (setPWMPrescaler pin prescale s).DIDR0 = s.DIDR0 := by
  rw [setPWMPrescaler_eq]
  split_ifs
  all_goals first | rfl | (split <;> rfl)

/-- C10: a call can change only the timer register owning the pin.  For every
divisor and register state the result of a call on pin 3 or 11 is the old state
with at most `TCCR0B` replaced, on pin 9 or 10 with at most `TCCR1B` replaced,
on pin 5 with at most `TCCR3B` replaced (so `TCCR1B` is untouched), on pin 6 or
13 with at most `TCCR4B` replaced; and for every pin `DIDR0` is unchanged. -/
theorem setPWMPrescaler_frame (pin prescale : Int) (s : Regs) :
    setPWMPrescaler 3 prescale s
        = { s with TCCR0B := (setPWMPrescaler 3 prescale s).TCCR0B }
    ∧ setPWMPrescaler 11 prescale s
        = { s with TCCR0B := (setPWMPrescaler 11 prescale s).TCCR0B }
    ∧ setPWMPrescaler 9 prescale s
        = { s with TCCR1B := (setPWMPrescaler 9 prescale s).TCCR1B }
    ∧ setPWMPrescaler 10 prescale s
        = { s with TCCR1B := (setPWMPrescaler 10 prescale s).TCCR1B }
    ∧ setPWMPrescaler 5 prescale s
        = { s with TCCR3B := (setPWMPrescaler 5 prescale s).TCCR3B }
    ∧ (setPWMPrescaler 5 prescale s).TCCR1B = s.TCCR1B
    ∧ setPWMPrescaler 6 prescale s
        = { s with TCCR4B := (setPWMPrescaler 6 prescale s).TCCR4B }
    ∧ setPWMPrescaler 13 prescale s
        = { s with TCCR4B := (setPWMPrescaler 13 prescale s).TCCR4B }
    ∧ (setPWMPrescaler pin prescale s).DIDR0 = s.DIDR0 := by
  refine ⟨?_, ?_, ?_, ?_, ?_, ?_, ?_, ?_, ?_⟩
  · exact setPWMPrescaler_frame_timer0 3 prescale s (by decide)
  · exact setPWMPrescaler_frame_timer0 11 prescale s (by decide)
  · exact setPWMPrescaler_frame_timer1 9 prescale s (by decide)
  · exact setPWMPrescaler_frame_timer1 10 prescale s (by decide)
  · exact setPWMPrescaler_frame_timer3 5 prescale s (by decide)
  · rw [setPWMPrescaler_frame_timer3 5 prescale s (by decide)]
  · exact setPWMPrescaler_frame_timer4 6 prescale s (by decide)
  · exact setPWMPrescaler_frame_timer4 13 prescale s (by decide)
  · exact setPWMPrescaler_DIDR0 pin prescale s

/-! ## The body by pin group, on the received values -/

theorem setPWMPrescalerBody_timer0 (p v : Nat) (s : Regs) (h : p = 3 ∨ p = 11) :
    setPWMPrescalerBody p v s =
      match timer0Mode v with
      | none => Except.error s
      | some mode =>
        Except.ok { s with TCCR0B := ((s.TCCR0B &&& 0b11111000) ||| mode) % 256 } := by
  unfold setPWMPrescalerBody timer0Block timer13Block timer4Block
  have c13 : ¬ (p = 5 ∨ p = 9 ∨ p = 10) := by omega
  have c4 : ¬ (p = 6 ∨ p = 13) := by omega
  cases timer0Mode v <;> simp [bind, Except.bind, h, c13, c4]

theorem setPWMPrescalerBody_timer1 (p v : Nat) (s : Regs) (h : p = 9 ∨ p = 10) :
    setPWMPrescalerBody p v s =
      match timer13Mode v with
      | none => Except.error s
      | some mode =>
        Except.ok { s with TCCR1B := ((s.TCCR1B &&& 0b11111000) ||| mode) % 256 } := by
  unfold setPWMPrescalerBody timer0Block timer13Block timer4Block
  have c0 : ¬ (p = 3 ∨ p = 11) := by omega
  have c13 : p = 5 ∨ p = 9 ∨ p = 10 := by omega
  have c4 : ¬ (p = 6 ∨ p = 13) := by omega
  cases timer13Mode v <;> simp [bind, Except.bind, h, c0, c13, c4]

theorem setPWMPrescalerBody_timer3 (p v : Nat) (s : Regs) (h : p = 5) :
    setPWMPrescalerBody p v s =
      match timer13Mode v with
      | none => Except.error s
      | some mode =>
        Except.ok { s with TCCR3B := ((s.TCCR3B &&& 0b11111000) ||| mode) % 256 } := by
  unfold setPWMPrescalerBody timer0Block timer13Block timer4Block
  have c0 : ¬ (p = 3 ∨ p = 11) := by omega
  have c1 : ¬ (p = 9 ∨ p = 10) := by omega
  have c13 : p = 5 ∨ p = 9 ∨ p = 10 := by omega
  have c4 : ¬ (p = 6 ∨ p = 13) := by omega
  cases timer13Mode v <;> simp [bind, Except.bind, h, c0, c1, c13, c4]

theorem setPWMPrescalerBody_timer4 (p v : Nat) (s : Regs) (h : p = 6 ∨ p = 13) :
    setPWMPrescalerBody p v s =
      match timer4Mode v with
      | none => Except.error s
      | some mode =>
        Except.ok { s with TCCR4B := ((s.TCCR4B &&& 0b11110000) ||| mode) % 256 } := by
  unfold setPWMPrescalerBody timer0Block timer13Block timer4Block
  have c0 : ¬ (p = 3 ∨ p = 11) := by omega
  have c13 : ¬ (p = 5 ∨ p = 9 ∨ p = 10) := by omega
  cases timer4Mode v <;> simp [bind, Except.bind, h, c0, c13]

/-! ## The tables compared (claims C11, C12) -/

/-- C11: the two 3-bit tables are the same function of the divisor.  For every
divisor and register state, a call on pin 3 or 11 and a call on pin 5, 9 or 10
either all return at `default` (no register written), or all store the same
mode code, a value below 8, in the low 3 bits of `TCCR0B`, `TCCR1B` (pins 9,
10) and `TCCR3B` (pin 5) respectively. -/
theorem three_bit_tables_identical (prescale : Int) (s : Regs) :
    (∀ v : Nat, timer0Mode v = timer13Mode v)
    ∧ ((setPWMPrescalerBody 3 (toUint8 prescale) s = Except.error s
          ∧ setPWMPrescalerBody 11 (toUint8 prescale) s = Except.error s
          ∧ setPWMPrescalerBody 5 (toUint8 prescale) s = Except.error s
          ∧ setPWMPrescalerBody 9 (toUint8 prescale) s = Except.error s
          ∧ setPWMPrescalerBody 10 (toUint8 prescale) s = Except.error s)
        ∨ (∃ mode : Nat, mode < 8
          ∧ setPWMPrescalerBody 3 (toUint8 prescale) s
              = Except.ok { s with TCCR0B := ((s.TCCR0B &&& 0b11111000) ||| mode) % 256 }
          ∧ setPWMPrescalerBody 11 (toUint8 prescale) s
              = Except.ok { s with TCCR0B := ((s.TCCR0B &&& 0b11111000) ||| mode) % 256 }
          ∧ setPWMPrescalerBody 5 (toUint8 prescale) s
              = Except.ok { s with TCCR3B := ((s.TCCR3B &&& 0b11111000) ||| mode) % 256 }
          ∧ setPWMPrescalerBody 9 (toUint8 prescale) s
              = Except.ok { s with TCCR1B := ((s.TCCR1B &&& 0b11111000) ||| mode) % 256 }
          ∧ setPWMPrescalerBody 10 (toUint8 prescale) s
              = Except.ok { s with TCCR1B := ((s.TCCR1B &&& 0b11111000) ||| mode) % 256 }
          ∧ (setPWMPrescaler 3 prescale s).TCCR0B &&& 0b111 = mode
          ∧ (setPWMPrescaler 11 prescale s).TCCR0B &&& 0b111 = mode
          ∧ (setPWMPrescaler 5 prescale s).TCCR3B &&& 0b111 = mode
          ∧ (setPWMPrescaler 9 prescale s).TCCR1B &&& 0b111 = mode
          ∧ (setPWMPrescaler 10 prescale s).TCCR1B &&& 0b111 = mode)) := by
  have htab : ∀ v : Nat, timer0Mode v = timer13Mode v := fun _ => rfl
  refine ⟨htab, ?_⟩
  rw [setPWMPrescalerBody_timer0 3 _ s (by decide),
    setPWMPrescalerBody_timer0 11 _ s (by decide),
    setPWMPrescalerBody_timer3 5 _ s (by decide),
    setPWMPrescalerBody_timer1 9 _ s (by decide),
    setPWMPrescalerBody_timer1 10 _ s (by decide)]
  unfold setPWMPrescaler
  rw [setPWMPrescalerBody_timer0 (toUint8 3) _ s (by decide),
    setPWMPrescalerBody_timer0 (toUint8 11) _ s (by decide),
    setPWMPrescalerBody_timer3 (toUint8 5) _ s (by decide),
    setPWMPrescalerBody_timer1 (toUint8 9) _ s (by decide),
    setPWMPrescalerBody_timer1 (toUint8 10) _ s (by decide)]
  rw [htab]
  cases hm : timer13Mode (toUint8 prescale) with
  | none => exact Or.inl ⟨rfl, rfl, rfl, rfl, rfl⟩
  | some m =>
    have hlt : m < 8 := by have := timer13Mode_range _ _ hm; omega
    exact Or.inr ⟨m, hlt, rfl, rfl, rfl, rfl, rfl,
      (write3_spec s.TCCR0B m hlt).2.2, (write3_spec s.TCCR0B m hlt).2.2,
      (write3_spec s.TCCR3B m hlt).2.2, (write3_spec s.TCCR1B m hlt).2.2,
      (write3_spec s.TCCR1B m hlt).2.2⟩

set_option maxRecDepth 100000 in
theorem timer0Mode_received : ∀ v < 256, timer0Mode v = receivedCode3 v := by
  decide

set_option maxRecDepth 100000 in
theorem timer4Mode_received_none : ∀ v < 256,
    ¬ (v = 1 ∨ v = 2 ∨ v = 4 ∨ v = 8 ∨ v = 16 ∨ v = 32 ∨ v = 64 ∨ v = 128) →
      timer4Mode v = none := by
  decide

theorem timer4Mode_received (v : Nat) (hv : v < 256) : timer4Mode v = receivedCode4 v := by
  by_cases h : v = 1 ∨ v = 2 ∨ v = 4 ∨ v = 8 ∨ v = 16 ∨ v = 32 ∨ v = 64 ∨ v = 128
  · rcases h with rfl | rfl | rfl | rfl | rfl | rfl | rfl | rfl <;>
      simp [timer4Mode, receivedCode4, Nat.log2]
  · rw [receivedCode4, if_neg h]
    exact timer4Mode_received_none v hv h

theorem receivedCode3_le (v code : Nat) (h : receivedCode3 v = some code) : code ≤ 3 := by
  unfold receivedCode3 at h
  iterate 3
    rw [ite_eq_iff] at h
    rcases h with ⟨-, h⟩ | ⟨-, h⟩
    · cases h; decide
  cases h

theorem receivedCode4_le (v code : Nat) (h : receivedCode4 v = some code) : code ≤ 8 := by
  unfold receivedCode4 at h
  rw [ite_eq_iff] at h
  rcases h with ⟨hv, h⟩ | ⟨-, h⟩
  · cases h
    rcases hv with rfl | rfl | rfl | rfl | rfl | rfl | rfl | rfl <;> simp [Nat.log2]
  · cases h

/-- C12: on the 8-bit value `v` that the function receives, the 3-bit tables
select a code exactly for `v` in {1, 8, 64} (codes 1, 2, 3) and the timer4
table exactly for `v` in {1, 2, 4, ..., 128} (code `log2 v + 1`).  The body
then stores that code in the register of the pin, and otherwise returns at
`default` with the registers as they were; the codes of the case labels 256 and
above (4, 5 on the 3-bit timers, 9..15 on timer4) are never selected. -/
theorem setPWMPrescaler_received_tables (v : Nat) (hv : v < 256) (s : Regs) :
    timer0Mode v = receivedCode3 v
    ∧ timer13Mode v = receivedCode3 v
    ∧ timer4Mode v = receivedCode4 v
    ∧ (∀ p : Nat, p = 3 ∨ p = 11 →
        setPWMPrescalerBody p v s =
          match receivedCode3 v with
          | none => Except.error s
          | some code =>
            Except.ok { s with TCCR0B := ((s.TCCR0B &&& 0b11111000) ||| code) % 256 })
    ∧ (∀ p : Nat, p = 9 ∨ p = 10 →
        setPWMPrescalerBody p v s =
          match receivedCode3 v with
          | none => Except.error s
          | some code =>
            Except.ok { s with TCCR1B := ((s.TCCR1B &&& 0b11111000) ||| code) % 256 })
    ∧ (setPWMPrescalerBody 5 v s =
          match receivedCode3 v with
          | none => Except.error s
          | some code =>
            Except.ok { s with TCCR3B := ((s.TCCR3B &&& 0b11111000) ||| code) % 256 })
    ∧ (∀ p : Nat, p = 6 ∨ p = 13 →
        setPWMPrescalerBody p v s =
          match receivedCode4 v with
          | none => Except.error s
          | some code =>
            Except.ok { s with TCCR4B := ((s.TCCR4B &&& 0b11110000) ||| code) % 256 })
    ∧ (∀ code : Nat, timer0Mode v = some code → code ≤ 3)
    ∧ (∀ code : Nat, timer13Mode v = some code → code ≤ 3)
    ∧ (∀ code : Nat, timer4Mode v = some code → code ≤ 8) := by
  have h0 : timer0Mode v = receivedCode3 v := timer0Mode_received v hv
  have h13 : timer13Mode v = receivedCode3 v := timer0Mode_received v hv
  have h4 : timer4Mode v = receivedCode4 v := timer4Mode_received v hv
  refine ⟨h0, h13, h4, ?_, ?_, ?_, ?_, ?_, ?_, ?_⟩
  · intro p hp
    rw [setPWMPrescalerBody_timer0 p v s hp, h0]
  · intro p hp
    rw [setPWMPrescalerBody_timer1 p v s hp, h13]
  · rw [setPWMPrescalerBody_timer3 5 v s rfl, h13]
  · intro p hp
    rw [setPWMPrescalerBody_timer4 p v s hp, h4]
  · intro code hc
    exact receivedCode3_le v code (h0 ▸ hc)
  · intro code hc
    exact receivedCode3_le v code (h13 ▸ hc)
  · intro code hc
    exact receivedCode4_le v code (h4 ▸ hc)

theorem setPWMPrescaler_received_tables_witness :
    (128 : Nat) < 256 ∧ timer4Mode 128 = receivedCode4 128
    ∧ setPWMPrescalerBody 6 128 ⟨0, 0, 0, 0x37, 0⟩ =
        match receivedCode4 128 with
        | none => Except.error ⟨0, 0, 0, 0x37, 0⟩
        | some code =>
          Except.ok { (⟨0, 0, 0, 0x37, 0⟩ : Regs) with
            TCCR4B := (((⟨0, 0, 0, 0x37, 0⟩ : Regs).TCCR4B &&& 0b11110000) ||| code) % 256 } :=
  ⟨by decide,
    (setPWMPrescaler_received_tables 128 (by decide) ⟨0, 0, 0, 0x37, 0⟩).2.2.1,
    (setPWMPrescaler_received_tables 128 (by decide) ⟨0, 0, 0, 0x37, 0⟩).2.2.2.2.2.2.1 6
      (Or.inl rfl)⟩

/-! ## The prescaler fields after a call -/

/-- After a call each prescaler field is either the register's old one or a
mode code of the table: 1..5 on the 3-bit timers, 1..15 on timer4. -/
theorem setPWMPrescaler_fields (pin prescale : Int) (s : Regs) :
    ((setPWMPrescaler pin prescale s).TCCR0B = s.TCCR0B
        ∨ (1 ≤ (setPWMPrescaler pin prescale s).TCCR0B &&& 0b111
          ∧ (setPWMPrescaler pin prescale s).TCCR0B &&& 0b111 ≤ 5))
    ∧ ((setPWMPrescaler pin prescale s).TCCR1B = s.TCCR1B
        ∨ (1 ≤ (setPWMPrescaler pin prescale s).TCCR1B &&& 0b111
          ∧ (setPWMPrescaler pin prescale s).TCCR1B &&& 0b111 ≤ 5))
    ∧ ((setPWMPrescaler pin prescale s).TCCR3B = s.TCCR3B
        ∨ (1 ≤ (setPWMPrescaler pin prescale s).TCCR3B &&& 0b111
          ∧ (setPWMPrescaler pin prescale s).TCCR3B &&& 0b111 ≤ 5))
    ∧ ((setPWMPrescaler pin prescale s).TCCR4B = s.TCCR4B
        ∨ (1 ≤ (setPWMPrescaler pin prescale s).TCCR4B &&& 0b1111
          ∧ (setPWMPrescaler pin prescale s).TCCR4B &&& 0b1111 ≤ 15)) := by
  rw [setPWMPrescaler_eq]
  split_ifs
  · cases hm : timer0Mode (toUint8 prescale) with
    | none => exact ⟨Or.inl rfl, Or.inl rfl, Or.inl rfl, Or.inl rfl⟩
    | some m =>
      have hr := timer0Mode_range _ _ hm
      have hw := (write3_spec s.TCCR0B m (by omega)).2.2
      refine ⟨Or.inr ?_, Or.inl rfl, Or.inl rfl, Or.inl rfl⟩
      show 1 ≤ (((s.TCCR0B &&& 0b11111000) ||| m) % 256) &&& 0b111
        ∧ (((s.TCCR0B &&& 0b11111000) ||| m) % 256) &&& 0b111 ≤ 5
      rw [hw]; exact hr
  · cases hm : timer13Mode (toUint8 prescale) with
    | none => exact ⟨Or.inl rfl, Or.inl rfl, Or.inl rfl, Or.inl rfl⟩
    | some m =>
      have hr := timer13Mode_range _ _ hm
      have hw := (write3_spec s.TCCR1B m (by omega)).2.2
      refine ⟨Or.inl rfl, Or.inr ?_, Or.inl rfl, Or.inl rfl⟩
      show 1 ≤ (((s.TCCR1B &&& 0b11111000) ||| m) % 256) &&& 0b111
        ∧ (((s.TCCR1B &&& 0b11111000) ||| m) % 256) &&& 0b111 ≤ 5
      rw [hw]; exact hr
  · cases hm : timer13Mode (toUint8 prescale) with
    | none => exact ⟨Or.inl rfl, Or.inl rfl, Or.inl rfl, Or.inl rfl⟩
    | some m =>
      have hr := timer13Mode_range _ _ hm
      have hw := (write3_spec s.TCCR3B m (by omega)).2.2
      refine ⟨Or.inl rfl, Or.inl rfl, Or.inr ?_, Or.inl rfl⟩
      show 1 ≤ (((s.TCCR3B &&& 0b11111000) ||| m) % 256) &&& 0b111
        ∧ (((s.TCCR3B &&& 0b11111000) ||| m) % 256) &&& 0b111 ≤ 5
      rw [hw]; exact hr
  · cases hm : timer4Mode (toUint8 prescale) with
    | none => exact ⟨Or.inl rfl, Or.inl rfl, Or.inl rfl, Or.inl rfl⟩
    | some m =>
      have hr := timer4Mode_range _ _ hm
      have hw := (write4_spec s.TCCR4B m (by omega)).2.2
      refine ⟨Or.inl rfl, Or.inl rfl, Or.inl rfl, Or.inr ?_⟩
      show 1 ≤ (((s.TCCR4B &&& 0b11110000) ||| m) % 256) &&& 0b1111
        ∧ (((s.TCCR4B &&& 0b11110000) ||| m) % 256) &&& 0b1111 ≤ 15
      rw [hw]; exact hr
  · exact ⟨Or.inl rfl, Or.inl rfl, Or.inl rfl, Or.inl rfl⟩

/-! ## Sequences of calls (claims C14, C15) -/

/-- The timer of a pin against the pin tests on the received pin value. -/
theorem timerOf_cases (pin : Int) :
    (timerOf pin = some Timer.timer0 ∧ (toUint8 pin = 3 ∨ toUint8 pin = 11))
    ∨ (timerOf pin = some Timer.timer1 ∧ (toUint8 pin = 9 ∨ toUint8 pin = 10))
    ∨ (timerOf pin = some Timer.timer3 ∧ toUint8 pin = 5)
    ∨ (timerOf pin = some Timer.timer4 ∧ (toUint8 pin = 6 ∨ toUint8 pin = 13))
    ∨ (timerOf pin = none ∧ ¬ (toUint8 pin = 3 ∨ toUint8 pin = 11)
        ∧ ¬ (toUint8 pin = 9 ∨ toUint8 pin = 10) ∧ ¬ (toUint8 pin = 5)
        ∧ ¬ (toUint8 pin = 6 ∨ toUint8 pin = 13)) := by
  unfold timerOf
  by_cases c0 : toUint8 pin = 3 ∨ toUint8 pin = 11
  · exact Or.inl ⟨by rw [if_pos c0], c0⟩
  · by_cases c1 : toUint8 pin = 9 ∨ toUint8 pin = 10
    · exact Or.inr (Or.inl ⟨by rw [if_neg c0, if_pos c1], c1⟩)
    · by_cases c3 : toUint8 pin = 5
      · exact Or.inr (Or.inr (Or.inl ⟨by rw [if_neg c0, if_neg c1, if_pos c3], c3⟩))
      · by_cases c4 : toUint8 pin = 6 ∨ toUint8 pin = 13
        · exact Or.inr (Or.inr (Or.inr (Or.inl
            ⟨by rw [if_neg c0, if_neg c1, if_neg c3, if_pos c4], c4⟩)))
        · exact Or.inr (Or.inr (Or.inr (Or.inr
            ⟨by rw [if_neg c0, if_neg c1, if_neg c3, if_neg c4], c0, c1, c3, c4⟩)))

theorem setPWMPrescaler_timer0 (pin prescale : Int) (s : Regs)
    (h : toUint8 pin = 3 ∨ toUint8 pin = 11) :
    setPWMPrescaler pin prescale s =
      match timer0Mode (toUint8 prescale) with
      | none => s
      | some mode => { s with TCCR0B := ((s.TCCR0B &&& 0b11111000) ||| mode) % 256 } := by
  rw [setPWMPrescaler_eq, if_pos h]

theorem setPWMPrescaler_timer1 (pin prescale : Int) (s : Regs)
    (h : toUint8 pin = 9 ∨ toUint8 pin = 10) :
    setPWMPrescaler pin prescale s =
      match timer13Mode (toUint8 prescale) with
      | none => s
      | some mode => { s with TCCR1B := ((s.TCCR1B &&& 0b11111000) ||| mode) % 256 } := by
  have c0 : ¬ (toUint8 pin = 3 ∨ toUint8 pin = 11) := by omega
  rw [setPWMPrescaler_eq, if_neg c0, if_pos h]

theorem setPWMPrescaler_timer3 (pin prescale : Int) (s : Regs)
    (h : toUint8 pin = 5) :
    setPWMPrescaler pin prescale s =
      match timer13Mode (toUint8 prescale) with
      | none => s
      | some mode => { s with TCCR3B := ((s.TCCR3B &&& 0b11111000) ||| mode) % 256 } := by
  have c0 : ¬ (toUint8 pin = 3 ∨ toUint8 pin = 11) := by omega
  have c1 : ¬ (toUint8 pin = 9 ∨ toUint8 pin = 10) := by omega
  rw [setPWMPrescaler_eq, if_neg c0, if_neg c1, if_pos h]

theorem setPWMPrescaler_timer4 (pin prescale : Int) (s : Regs)
    (h : toUint8 pin = 6 ∨ toUint8 pin = 13) :
    setPWMPrescaler pin prescale s =
      match timer4Mode (toUint8 prescale) with
      | none => s
      | some mode => { s with TCCR4B := ((s.TCCR4B &&& 0b11110000) ||| mode) % 256 } := by
  have c0 : ¬ (toUint8 pin = 3 ∨ toUint8 pin = 11) := by omega
  have c1 : ¬ (toUint8 pin = 9 ∨ toUint8 pin = 10) := by omega
  have c3 : ¬ (toUint8 pin = 5) := by omega
  rw [setPWMPrescaler_eq, if_neg c0, if_neg c1, if_neg c3, if_pos h]

theorem setPWMPrescaler_no_timer (pin prescale : Int) (s : Regs)
    (h : timerOf pin = none) : setPWMPrescaler pin prescale s = s := by
  rcases timerOf_cases pin with ⟨e, -⟩ | ⟨e, -⟩ | ⟨e, -⟩ | ⟨e, -⟩ | ⟨-, c0, c1, c3, c4⟩
  · rw [h] at e; cases e
  · rw [h] at e; cases e
  · rw [h] at e; cases e
  · rw [h] at e; cases e
  · rw [setPWMPrescaler_eq, if_neg c0, if_neg c1, if_neg c3, if_neg c4]

/-- C14: the last accepted write wins.  If the pins `p` and `q` have the same
timer and the call on `q` with divisor `d2` does not return at `default`, then
the call on `p` with any divisor `d1` followed by the call on `q` with `d2`
gives the same registers as the call on `q` with `d2` alone. -/
theorem setPWMPrescaler_last_write_wins (p q d1 d2 : Int) (s : Regs)
    (hshare : timerOf p = timerOf q) (hq : timerOf q ≠ none)
    (hacc : (setPWMPrescalerBody (toUint8 q) (toUint8 d2) s).isOk = true) :
    setPWMPrescaler q d2 (setPWMPrescaler p d1 s) = setPWMPrescaler q d2 s := by
  rcases timerOf_cases q with ⟨eq, cq⟩ | ⟨eq, cq⟩ | ⟨eq, cq⟩ | ⟨eq, cq⟩ | ⟨eq, -⟩
  · rcases timerOf_cases p with ⟨-, cp⟩ | ⟨ep, -⟩ | ⟨ep, -⟩ | ⟨ep, -⟩ | ⟨ep, -⟩
    · rw [setPWMPrescalerBody_timer0 _ _ s cq] at hacc
      rw [setPWMPrescaler_timer0 q d2 _ cq, setPWMPrescaler_timer0 q d2 s cq,
        setPWMPrescaler_timer0 p d1 s cp]
      cases h2 : timer0Mode (toUint8 d2) with
      | none => rw [h2] at hacc; simp [Except.isOk, Except.toBool] at hacc
      | some m2 =>
        cases h1 : timer0Mode (toUint8 d1) with
        | none => rfl
        | some m1 =>
          have hw := write3_write3 s.TCCR0B m1 m2
            (by have := timer0Mode_range _ _ h1; omega)
          simp only [hw]
    all_goals (rw [ep, eq] at hshare; cases hshare)
  · rcases timerOf_cases p with ⟨ep, -⟩ | ⟨-, cp⟩ | ⟨ep, -⟩ | ⟨ep, -⟩ | ⟨ep, -⟩
    · rw [ep, eq] at hshare; cases hshare
    · rw [setPWMPrescalerBody_timer1 _ _ s cq] at hacc
      rw [setPWMPrescaler_timer1 q d2 _ cq, setPWMPrescaler_timer1 q d2 s cq,
        setPWMPrescaler_timer1 p d1 s cp]
      cases h2 : timer13Mode (toUint8 d2) with
      | none => rw [h2] at hacc; simp [Except.isOk, Except.toBool] at hacc
      | some m2 =>
        cases h1 : timer13Mode (toUint8 d1) with
        | none => rfl
        | some m1 =>
          have hw := write3_write3 s.TCCR1B m1 m2
            (by have := timer13Mode_range _ _ h1; omega)
          simp only [hw]
    all_goals (rw [ep, eq] at hshare; cases hshare)
  · rcases timerOf_cases p with ⟨ep, -⟩ | ⟨ep, -⟩ | ⟨-, cp⟩ | ⟨ep, -⟩ | ⟨ep, -⟩
    · rw [ep, eq] at hshare; cases hshare
    · rw [ep, eq] at hshare; cases hshare
    · rw [setPWMPrescalerBody_timer3 _ _ s cq] at hacc
      rw [setPWMPrescaler_timer3 q d2 _ cq, setPWMPrescaler_timer3 q d2 s cq,
        setPWMPrescaler_timer3 p d1 s cp]
      cases h2 : timer13Mode (toUint8 d2) with
      | none => rw [h2] at hacc; simp [Except.isOk, Except.toBool] at hacc
      | some m2 =>
        cases h1 : timer13Mode (toUint8 d1) with
        | none => rfl
        | some m1 =>
          have hw := write3_write3 s.TCCR3B m1 m2
            (by have := timer13Mode_range _ _ h1; omega)
          simp only [hw]
    all_goals (rw [ep, eq] at hshare; cases hshare)
  · rcases timerOf_cases p with ⟨ep, -⟩ | ⟨ep, -⟩ | ⟨ep, -⟩ | ⟨-, cp⟩ | ⟨ep, -⟩
    · rw [ep, eq] at hshare; cases hshare
    · rw [ep, eq] at hshare; cases hshare
    · rw [ep, eq] at hshare; cases hshare
    · rw [setPWMPrescalerBody_timer4 _ _ s cq] at hacc
      rw [setPWMPrescaler_timer4 q d2 _ cq, setPWMPrescaler_timer4 q d2 s cq,
        setPWMPrescaler_timer4 p d1 s cp]
      cases h2 : timer4Mode (toUint8 d2) with
      | none => rw [h2] at hacc; simp [Except.isOk, Except.toBool] at hacc
      | some m2 =>
        cases h1 : timer4Mode (toUint8 d1) with
        | none => rfl
        | some m1 =>
          have hw := write4_write4 s.TCCR4B m1 m2
            (by have := timer4Mode_range _ _ h1; omega)
          simp only [hw]
    · rw [ep, eq] at hshare; cases hshare
  · exact absurd eq hq

theorem setPWMPrescaler_last_write_wins_witness :
    timerOf 3 = timerOf 11 ∧ timerOf 11 ≠ none
    ∧ (setPWMPrescalerBody (toUint8 11) (toUint8 64) ⟨0xFF, 0, 0, 0, 0⟩).isOk = true
    ∧ setPWMPrescaler 11 64 (setPWMPrescaler 3 8 ⟨0xFF, 0, 0, 0, 0⟩)
        = setPWMPrescaler 11 64 ⟨0xFF, 0, 0, 0, 0⟩ :=
  ⟨by decide, by decide, by decide,
    setPWMPrescaler_last_write_wins 3 11 8 64 ⟨0xFF, 0, 0, 0, 0⟩
      (by decide) (by decide) (by decide)⟩

/-- A call on a pin of timer0 rewrites `TCCR0B` by a function of its old value
and nothing else. -/
theorem setPWMPrescaler_timer0_fun (pin prescale : Int)
    (h : toUint8 pin = 3 ∨ toUint8 pin = 11) :
    ∃ f : Nat → Nat, ∀ s : Regs,
      setPWMPrescaler pin prescale s = { s with TCCR0B := f s.TCCR0B } := by
  cases hm : timer0Mode (toUint8 prescale) with
  | none => exact ⟨id, fun s => by rw [setPWMPrescaler_timer0 pin prescale s h, hm]; rfl⟩
  | some m =>
    exact ⟨fun r => ((r &&& 0b11111000) ||| m) % 256,
      fun s => by rw [setPWMPrescaler_timer0 pin prescale s h, hm]⟩

theorem setPWMPrescaler_timer1_fun (pin prescale : Int)
    (h : toUint8 pin = 9 ∨ toUint8 pin = 10) :
    ∃ f : Nat → Nat, ∀ s : Regs,
      setPWMPrescaler pin prescale s = { s with TCCR1B := f s.TCCR1B } := by
  cases hm : timer13Mode (toUint8 prescale) with
  | none => exact ⟨id, fun s => by rw [setPWMPrescaler_timer1 pin prescale s h, hm]; rfl⟩
  | some m =>
    exact ⟨fun r => ((r &&& 0b11111000) ||| m) % 256,
      fun s => by rw [setPWMPrescaler_timer1 pin prescale s h, hm]⟩

theorem setPWMPrescaler_timer3_fun (pin prescale : Int)
    (h : toUint8 pin = 5) :
    ∃ f : Nat → Nat, ∀ s : Regs,
      setPWMPrescaler pin prescale s = { s with TCCR3B := f s.TCCR3B } := by
  cases hm : timer13Mode (toUint8 prescale) with
  | none => exact ⟨id, fun s => by rw [setPWMPrescaler_timer3 pin prescale s h, hm]; rfl⟩
  | some m =>
    exact ⟨fun r => ((r &&& 0b11111000) ||| m) % 256,
      fun s => by rw [setPWMPrescaler_timer3 pin prescale s h, hm]⟩

theorem setPWMPrescaler_timer4_fun (pin prescale : Int)
    (h : toUint8 pin = 6 ∨ toUint8 pin = 13) :
    ∃ f : Nat → Nat, ∀ s : Regs,
      setPWMPrescaler pin prescale s = { s with TCCR4B := f s.TCCR4B } := by
  cases hm : timer4Mode (toUint8 prescale) with
  | none => exact ⟨id, fun s => by rw [setPWMPrescaler_timer4 pin prescale s h, hm]; rfl⟩
  | some m =>
    exact ⟨fun r => ((r &&& 0b11110000) ||| m) % 256,
      fun s => by rw [setPWMPrescaler_timer4 pin prescale s h, hm]⟩

/-- Every call rewrites the four timer registers by functions of their own old
values and keeps `DIDR0`. -/
theorem setPWMPrescaler_fun (pin prescale : Int) :
    ∃ f0 f1 f3 f4 : Nat → Nat, ∀ s : Regs,
      setPWMPrescaler pin prescale s =
        { TCCR0B := f0 s.TCCR0B, TCCR1B := f1 s.TCCR1B, TCCR3B := f3 s.TCCR3B,
          TCCR4B := f4 s.TCCR4B, DIDR0 := s.DIDR0 } := by
  rcases timerOf_cases pin with ⟨-, c⟩ | ⟨-, c⟩ | ⟨-, c⟩ | ⟨-, c⟩ | ⟨e, -⟩
  · obtain ⟨f, hf⟩ := setPWMPrescaler_timer0_fun pin prescale c
    exact ⟨f, id, id, id, fun s => by rw [hf s]; rfl⟩
  · obtain ⟨f, hf⟩ := setPWMPrescaler_timer1_fun pin prescale c
    exact ⟨id, f, id, id, fun s => by rw [hf s]; rfl⟩
  · obtain ⟨f, hf⟩ := setPWMPrescaler_timer3_fun pin prescale c
    exact ⟨id, id, f, id, fun s => by rw [hf s]; rfl⟩
  · obtain ⟨f, hf⟩ := setPWMPrescaler_timer4_fun pin prescale c
    exact ⟨id, id, id, f, fun s => by rw [hf s]; rfl⟩
  · exact ⟨id, id, id, id, fun s => by rw [setPWMPrescaler_no_timer pin prescale s e]; rfl⟩

/-- C15: calls on different timers commute.  If the pins `p` and `q` do not
have the same timer, or one of them has none, then for all divisors and every
register state the two calls give the same registers in either order; and
`setupADC` commutes with every call of `setPWMPrescaler`. -/
theorem setPWMPrescaler_commute (p q d1 d2 : Int) (s : Regs) :
    ((timerOf p ≠ timerOf q ∨ timerOf p = none ∨ timerOf q = none) →
      setPWMPrescaler q d2 (setPWMPrescaler p d1 s)
        = setPWMPrescaler p d1 (setPWMPrescaler q d2 s))
    ∧ setupADC (setPWMPrescaler p d1 s) = setPWMPrescaler p d1 (setupADC s) := by
  constructor
  · intro h
    rcases timerOf_cases p with ⟨ep, cp⟩ | ⟨ep, cp⟩ | ⟨ep, cp⟩ | ⟨ep, cp⟩ | ⟨ep, -⟩
    · obtain ⟨f, hf⟩ := setPWMPrescaler_timer0_fun p d1 cp
      rcases timerOf_cases q with ⟨eq, cq⟩ | ⟨eq, cq⟩ | ⟨eq, cq⟩ | ⟨eq, cq⟩ | ⟨eq, -⟩
      · rw [ep, eq] at h; simp at h
      · obtain ⟨g, hg⟩ := setPWMPrescaler_timer1_fun q d2 cq
        simp only [hf, hg]
      · obtain ⟨g, hg⟩ := setPWMPrescaler_timer3_fun q d2 cq
        simp only [hf, hg]
      · obtain ⟨g, hg⟩ := setPWMPrescaler_timer4_fun q d2 cq
        simp only [hf, hg]
      · simp only [setPWMPrescaler_no_timer q d2 _ eq]
    · obtain ⟨f, hf⟩ := setPWMPrescaler_timer1_fun p d1 cp
      rcases timerOf_cases q with ⟨eq, cq⟩ | ⟨eq, cq⟩ | ⟨eq, cq⟩ | ⟨eq, cq⟩ | ⟨eq, -⟩
      · obtain ⟨g, hg⟩ := setPWMPrescaler_timer0_fun q d2 cq
        simp only [hf, hg]
      · rw [ep, eq] at h; simp at h
      · obtain ⟨g, hg⟩ := setPWMPrescaler_timer3_fun q d2 cq
        simp only [hf, hg]
      · obtain ⟨g, hg⟩ := setPWMPrescaler_timer4_fun q d2 cq
        simp only [hf, hg]
      · simp only [setPWMPrescaler_no_timer q d2 _ eq]
    · obtain ⟨f, hf⟩ := setPWMPrescaler_timer3_fun p d1 cp
      rcases timerOf_cases q with ⟨eq, cq⟩ | ⟨eq, cq⟩ | ⟨eq, cq⟩ | ⟨eq, cq⟩ | ⟨eq, -⟩
      · obtain ⟨g, hg⟩ := setPWMPrescaler_timer0_fun q d2 cq
        simp only [hf, hg]
      · obtain ⟨g, hg⟩ := setPWMPrescaler_timer1_fun q d2 cq
        simp only [hf, hg]
      · rw [ep, eq] at h; simp at h
      · obtain ⟨g, hg⟩ := setPWMPrescaler_timer4_fun q d2 cq
        simp only [hf, hg]
      · simp only [setPWMPrescaler_no_timer q d2 _ eq]
    · obtain ⟨f, hf⟩ := setPWMPrescaler_timer4_fun p d1 cp
      rcases timerOf_cases q with ⟨eq, cq⟩ | ⟨eq, cq⟩ | ⟨eq, cq⟩ | ⟨eq, cq⟩ | ⟨eq, -⟩
      · obtain ⟨g, hg⟩ := setPWMPrescaler_timer0_fun q d2 cq
        simp only [hf, hg]
      · obtain ⟨g, hg⟩ := setPWMPrescaler_timer1_fun q d2 cq
        simp only [hf, hg]
      · obtain ⟨g, hg⟩ := setPWMPrescaler_timer3_fun q d2 cq
        simp only [hf, hg]
      · rw [ep, eq] at h; simp at h
      · simp only [setPWMPrescaler_no_timer q d2 _ eq]
    · simp only [setPWMPrescaler_no_timer p d1 _ ep]
  · obtain ⟨f0, f1, f3, f4, hf⟩ := setPWMPrescaler_fun p d1
    simp only [hf, setupADC]

theorem setPWMPrescaler_commute_witness :
    (timerOf 3 ≠ timerOf 9 ∨ timerOf 3 = none ∨ timerOf 9 = none)
    ∧ setPWMPrescaler 9 64 (setPWMPrescaler 3 8 ⟨0xFF, 0xFF, 0, 0, 0⟩)
        = setPWMPrescaler 3 8 (setPWMPrescaler 9 64 ⟨0xFF, 0xFF, 0, 0, 0⟩) :=
  ⟨by decide,
    (setPWMPrescaler_commute 3 9 8 64 ⟨0xFF, 0xFF, 0, 0, 0⟩).1 (by decide)⟩

/-! ## The stopped-timer code (claim C13) -/

/-- When the body on a pin of some timer runs to its end (no `return` at
`default`), the prescaler field of that timer's register in the resulting
state is a mode code of the table: 1..5 on the 3-bit timers, 1..15 on timer4. -/
theorem setPWMPrescalerBody_written_field (pin prescale : Int) (s t : Regs)
    (hok : setPWMPrescalerBody (toUint8 pin) (toUint8 prescale) s = Except.ok t) :
    (timerOf pin = some Timer.timer0 →
        1 ≤ t.TCCR0B &&& 0b111 ∧ t.TCCR0B &&& 0b111 ≤ 5)
    ∧ (timerOf pin = some Timer.timer1 →
        1 ≤ t.TCCR1B &&& 0b111 ∧ t.TCCR1B &&& 0b111 ≤ 5)
    ∧ (timerOf pin = some Timer.timer3 →
        1 ≤ t.TCCR3B &&& 0b111 ∧ t.TCCR3B &&& 0b111 ≤ 5)
    ∧ (timerOf pin = some Timer.timer4 →
        1 ≤ t.TCCR4B &&& 0b1111 ∧ t.TCCR4B &&& 0b1111 ≤ 15) := by
  rcases timerOf_cases pin with ⟨e, c⟩ | ⟨e, c⟩ | ⟨e, c⟩ | ⟨e, c⟩ | ⟨e, -⟩
  · rw [setPWMPrescalerBody_timer0 _ _ s c] at hok
    cases hm : timer0Mode (toUint8 prescale) with
    | none => rw [hm] at hok; cases hok
    | some m =>
      rw [hm] at hok
      have hr := timer0Mode_range _ _ hm
      have hw := (write3_spec s.TCCR0B m (by omega)).2.2
      cases hok
      refine ⟨fun _ => ?_, fun h => ?_, fun h => ?_, fun h => ?_⟩
      · show 1 ≤ (((s.TCCR0B &&& 0b11111000) ||| m) % 256) &&& 0b111
          ∧ (((s.TCCR0B &&& 0b11111000) ||| m) % 256) &&& 0b111 ≤ 5
        rw [hw]; exact hr
      all_goals (rw [e] at h; cases h)
  · rw [setPWMPrescalerBody_timer1 _ _ s c] at hok
    cases hm : timer13Mode (toUint8 prescale) with
    | none => rw [hm] at hok; cases hok
    | some m =>
      rw [hm] at hok
      have hr := timer13Mode_range _ _ hm
      have hw := (write3_spec s.TCCR1B m (by omega)).2.2
      cases hok
      refine ⟨fun h => ?_, fun _ => ?_, fun h => ?_, fun h => ?_⟩
      · rw [e] at h; cases h
      · show 1 ≤ (((s.TCCR1B &&& 0b11111000) ||| m) % 256) &&& 0b111
          ∧ (((s.TCCR1B &&& 0b11111000) ||| m) % 256) &&& 0b111 ≤ 5
        rw [hw]; exact hr
      all_goals (rw [e] at h; cases h)
  · rw [setPWMPrescalerBody_timer3 _ _ s c] at hok
    cases hm : timer13Mode (toUint8 prescale) with
    | none => rw [hm] at hok; cases hok
    | some m =>
      rw [hm] at hok
      have hr := timer13Mode_range _ _ hm
      have hw := (write3_spec s.TCCR3B m (by omega)).2.2
      cases hok
      refine ⟨fun h => ?_, fun h => ?_, fun _ => ?_, fun h => ?_⟩
      · rw [e] at h; cases h
      · rw [e] at h; cases h
      · show 1 ≤ (((s.TCCR3B &&& 0b11111000) ||| m) % 256) &&& 0b111
          ∧ (((s.TCCR3B &&& 0b11111000) ||| m) % 256) &&& 0b111 ≤ 5
        rw [hw]; exact hr
      · rw [e] at h; cases h
  · rw [setPWMPrescalerBody_timer4 _ _ s c] at hok
    cases hm : timer4Mode (toUint8 prescale) with
    | none => rw [hm] at hok; cases hok
    | some m =>
      rw [hm] at hok
      have hr := timer4Mode_range _ _ hm
      have hw := (write4_spec s.TCCR4B m (by omega)).2.2
      cases hok
      refine ⟨fun h => ?_, fun h => ?_, fun h => ?_, fun _ => ?_⟩
      · rw [e] at h; cases h
      · rw [e] at h; cases h
      · rw [e] at h; cases h
      · show 1 ≤ (((s.TCCR4B &&& 0b11110000) ||| m) % 256) &&& 0b1111
          ∧ (((s.TCCR4B &&& 0b11110000) ||| m) % 256) &&& 0b1111 ≤ 15
        rw [hw]; exact hr
  · refine ⟨fun h => ?_, fun h => ?_, fun h => ?_, fun h => ?_⟩
    all_goals (rw [e] at h; cases h)

/-- C13: `setPWMPrescaler` never selects the stopped-timer code 0.  If all four
prescaler fields are non-zero before a call of `setPWMPrescaler` (any pin, any
divisor) or of `setupADC`, they are non-zero after it.  For every call and
every register state, each timer register after the call is either the one
before it or has its field in 1..5 (`TCCR0B`, `TCCR1B`, `TCCR3B`) or 1..15
(`TCCR4B`); and whenever the body of the call on a pin of some timer runs to
its write (it does not return at `default`), the field of that timer's
register after the call lies in 1..5 for the 3-bit timers and in 1..15 for
timer4.  The field stored by a write with a mode code of a table is that
code, itself in 1..5 or 1..15. -/
theorem setPWMPrescaler_never_stops_timer (pin prescale : Int) (s : Regs) :
    (noTimerStopped s →
      noTimerStopped (setPWMPrescaler pin prescale s) ∧ noTimerStopped (setupADC s))
    ∧ ((setPWMPrescaler pin prescale s).TCCR0B = s.TCCR0B
        ∨ (1 ≤ (setPWMPrescaler pin prescale s).TCCR0B &&& 0b111
          ∧ (setPWMPrescaler pin prescale s).TCCR0B &&& 0b111 ≤ 5))
    ∧ ((setPWMPrescaler pin prescale s).TCCR1B = s.TCCR1B
        ∨ (1 ≤ (setPWMPrescaler pin prescale s).TCCR1B &&& 0b111
          ∧ (setPWMPrescaler pin prescale s).TCCR1B &&& 0b111 ≤ 5))
    ∧ ((setPWMPrescaler pin prescale s).TCCR3B = s.TCCR3B
        ∨ (1 ≤ (setPWMPrescaler pin prescale s).TCCR3B &&& 0b111
          ∧ (setPWMPrescaler pin prescale s).TCCR3B &&& 0b111 ≤ 5))
    ∧ ((setPWMPrescaler pin prescale s).TCCR4B = s.TCCR4B
        ∨ (1 ≤ (setPWMPrescaler pin prescale s).TCCR4B &&& 0b1111
          ∧ (setPWMPrescaler pin prescale s).TCCR4B &&& 0b1111 ≤ 15))
    ∧ (∀ t : Regs,
        setPWMPrescalerBody (toUint8 pin) (toUint8 prescale) s = Except.ok t →
          setPWMPrescaler pin prescale s = t
          ∧ (timerOf pin = some Timer.timer0 →
              1 ≤ (setPWMPrescaler pin prescale s).TCCR0B &&& 0b111
              ∧ (setPWMPrescaler pin prescale s).TCCR0B &&& 0b111 ≤ 5)
          ∧ (timerOf pin = some Timer.timer1 →
              1 ≤ (setPWMPrescaler pin prescale s).TCCR1B &&& 0b111
              ∧ (setPWMPrescaler pin prescale s).TCCR1B &&& 0b111 ≤ 5)
          ∧ (timerOf pin = some Timer.timer3 →
              1 ≤ (setPWMPrescaler pin prescale s).TCCR3B &&& 0b111
              ∧ (setPWMPrescaler pin prescale s).TCCR3B &&& 0b111 ≤ 5)
          ∧ (timerOf pin = some Timer.timer4 →
              1 ≤ (setPWMPrescaler pin prescale s).TCCR4B &&& 0b1111
              ∧ (setPWMPrescaler pin prescale s).TCCR4B &&& 0b1111 ≤ 15))
    ∧ (∀ v mode r : Nat, timer0Mode v = some mode →
        (((r &&& 0b11111000) ||| mode) % 256) &&& 0b111 = mode ∧ 1 ≤ mode ∧ mode ≤ 5)
    ∧ (∀ v mode r : Nat, timer13Mode v = some mode →
        (((r &&& 0b11111000) ||| mode) % 256) &&& 0b111 = mode ∧ 1 ≤ mode ∧ mode ≤ 5)
    ∧ (∀ v mode r : Nat, timer4Mode v = some mode →
        (((r &&& 0b11110000) ||| mode) % 256) &&& 0b1111 = mode ∧ 1 ≤ mode ∧ mode ≤ 15) := by
  obtain ⟨f0, f1, f3, f4⟩ := setPWMPrescaler_fields pin prescale s
  refine ⟨?_, f0, f1, f3, f4, ?_, ?_, ?_, ?_⟩
  · intro h
    refine ⟨?_, h⟩
    obtain ⟨h0, h1, h3, h4⟩ := h
    refine ⟨?_, ?_, ?_, ?_⟩
    · rcases f0 with e | ⟨lo, -⟩
      · rw [e]; exact h0
      · omega
    · rcases f1 with e | ⟨lo, -⟩
      · rw [e]; exact h1
      · omega
    · rcases f3 with e | ⟨lo, -⟩
      · rw [e]; exact h3
      · omega
    · rcases f4 with e | ⟨lo, -⟩
      · rw [e]; exact h4
      · omega
  · intro t hok
    have hcall : setPWMPrescaler pin prescale s = t := by
      unfold setPWMPrescaler
      rw [hok]
    rw [hcall]
    exact ⟨rfl, setPWMPrescalerBody_written_field pin prescale s t hok⟩
  · intro v mode r hm
    have hr := timer0Mode_range _ _ hm
    exact ⟨(write3_spec r mode (by omega)).2.2, hr⟩
  · intro v mode r hm
    have hr := timer13Mode_range _ _ hm
    exact ⟨(write3_spec r mode (by omega)).2.2, hr⟩
  · intro v mode r hm
    have hr := timer4Mode_range _ _ hm
    exact ⟨(write4_spec r mode (by omega)).2.2, hr⟩

theorem setPWMPrescaler_never_stops_timer_witness :
    noTimerStopped ⟨0x03, 0x0D, 0x03, 0x07, 0⟩
    ∧ noTimerStopped (setPWMPrescaler 9 64 ⟨0x03, 0x0D, 0x03, 0x07, 0⟩)
    ∧ noTimerStopped (setupADC ⟨0x03, 0x0D, 0x03, 0x07, 0⟩)
    ∧ setPWMPrescalerBody (toUint8 9) (toUint8 64) ⟨0x03, 0x0D, 0x03, 0x07, 0⟩
        = Except.ok ⟨0x03, 0x0B, 0x03, 0x07, 0⟩
    ∧ timerOf 9 = some Timer.timer1
    ∧ 1 ≤ (setPWMPrescaler 9 64 ⟨0x03, 0x0D, 0x03, 0x07, 0⟩).TCCR1B &&& 0b111
    ∧ (setPWMPrescaler 9 64 ⟨0x03, 0x0D, 0x03, 0x07, 0⟩).TCCR1B &&& 0b111 ≤ 5 :=
  ⟨by unfold noTimerStopped; decide,
    ((setPWMPrescaler_never_stops_timer 9 64 ⟨0x03, 0x0D, 0x03, 0x07, 0⟩).1
      (by unfold noTimerStopped; decide)).1,
    ((setPWMPrescaler_never_stops_timer 9 64 ⟨0x03, 0x0D, 0x03, 0x07, 0⟩).1
      (by unfold noTimerStopped; decide)).2,
    rfl, by decide,
    ((setPWMPrescaler_never_stops_timer 9 64 ⟨0x03, 0x0D, 0x03, 0x07, 0⟩).2.2.2.2.2.1
      ⟨0x03, 0x0B, 0x03, 0x07, 0⟩ rfl).2.2.1 (by decide)⟩

end SolarMPPT
